import Mathlib

/-!
Shallow embedding of the MCP client base library core
(`ConnectionStateManager`, `TimeoutManager`, `ReSyncManager`, and the
timeout / process-exit / process-error handlers of `BaseMCPClient`).

Conventions of the embedding:
* JavaScript numbers that can be fractional (timeout configuration values,
  retry delays, backoff multipliers) are modelled as `ℚ`; counters and
  timestamps (always integral in the source) as `Nat`.
* `Date.now()` is modelled by threading an explicit `now : Nat` argument.
* A thrown exception is modelled by `Except.error msg`: the thrown value is
  the error message string.  An operation that throws before mutating
  returns `Except.error` and hands no updated state to the caller, which is
  exactly the source's no-partial-update behaviour.
* Listeners are modelled observationally: each registered listener is its
  observation stream (the list of statuses it has been notified with, in
  order); notifying appends the delivered status to every stream.
-/

namespace MCP

/-- The `ConnectionState` enum from `types.ts`. -/
inductive ConnectionState where
  | disconnected
  | connecting
  | connected
  | timeoutRetrying
  | error
  deriving DecidableEq

/-- The string value of each enum member (`DISCONNECTED = "disconnected"`, …). -/
def ConnectionState.str : ConnectionState → String
  | .disconnected => "disconnected"
  | .connecting => "connecting"
  | .connected => "connected"
  | .timeoutRetrying => "timeout_retrying"
  | .error => "error"

/-- The `VALID_TRANSITIONS` map of `ConnectionStateManager.ts`. -/
def VALID_TRANSITIONS : ConnectionState → List ConnectionState
  | .disconnected => [.connecting, .error]
  | .connecting => [.connected, .error, .disconnected]
  | .connected => [.timeoutRetrying, .disconnected, .error]
  | .timeoutRetrying => [.connected, .error, .disconnected]
  | .error => [.connecting, .disconnected]

/-- `ConnectionStatus` from `types.ts`.  The two optional fields are
`Option`-valued; `lastError` is represented by its message string. -/
structure ConnectionStatus where
  state : ConnectionState
  message : String
  serverProcessRunning : Bool
  timestamp : Nat
  retryCount : Option Nat
  lastError : Option String
  deriving DecidableEq

/-- `Partial<ConnectionStatus>` — the `details` argument of `setState`.
Absent fields are `none`. -/
structure StatusDetails where
  state : Option ConnectionState := none
  message : Option String := none
  serverProcessRunning : Option Bool := none
  timestamp : Option Nat := none
  retryCount : Option Nat := none
  lastError : Option String := none
  deriving DecidableEq

/-- The mutable fields of the `ConnectionStateManager` class.  Each element
of `listeners` is one registered listener, represented by the list of
statuses delivered to it so far (its observation stream). -/
structure ConnectionStateManager where
  state : ConnectionState
  listeners : List (List ConnectionStatus)
  statusHistory : List ConnectionStatus
  serverProcessRunning : Bool
  currentMessage : String
  deriving DecidableEq

/-- `maxHistorySize` of `ConnectionStateManager`. -/
def maxHistorySize : Nat := 50

namespace ConnectionStateManager

/-- `isValidTransition`: self-transitions always allowed, otherwise look up
the transition table. -/
def isValidTransition (src dst : ConnectionState) : Bool :=
  if src = dst then true
  else (VALID_TRANSITIONS src).contains dst

/-- `getStateMessage`: the fixed per-state default message (computed from
the state that was just assigned). -/
def getStateMessage : ConnectionState → String
  | .disconnected => "Disconnected from server"
  | .connecting => "Connecting to server"
  | .connected => "Connected to server"
  | .timeoutRetrying => "Connection timeout, retrying"
  | .error => "Connection error"

/-- `addToHistory`: push, then `slice(-maxHistorySize)` when the bound is
exceeded (keep the most recent 50, dropping the oldest first). -/
def addToHistory (history : List ConnectionStatus) (status : ConnectionStatus) :
    List ConnectionStatus :=
  if (history ++ [status]).length > maxHistorySize then
    (history ++ [status]).drop ((history ++ [status]).length - maxHistorySize)
  else history ++ [status]

/-- The constructor: initial state `DISCONNECTED`, no listeners, history
seeded with the initial status, `serverProcessRunning = false`,
`currentMessage = "Initial state"`. -/
def new (now : Nat) : ConnectionStateManager :=
  { state := .disconnected
    listeners := []
    statusHistory := addToHistory []
      { state := .disconnected
        message := "Initial state"
        serverProcessRunning := false
        timestamp := now
        retryCount := none
        lastError := none }
    serverProcessRunning := false
    currentMessage := "Initial state" }

/-- `getStatus()`: a fresh record with exactly the four always-present
fields (`state`, `message`, `serverProcessRunning`, `timestamp`); the
source's object literal never contains `retryCount` or `lastError`. -/
def getStatus (m : ConnectionStateManager) (now : Nat) : ConnectionStatus :=
  { state := m.state
    message := m.currentMessage
    serverProcessRunning := m.serverProcessRunning
    timestamp := now
    retryCount := none
    lastError := none }

/-- `setState(state, details?)`.

Faithful points: validation happens before any mutation (a rejected
transition is `Except.error` carrying the template message and nothing is
updated); `currentMessage = details?.message || getStateMessage()` uses JS
`||`, so an *empty* `details.message` also falls back to the default; the
status object is `{state, message, serverProcessRunning, timestamp,
...details}`, so every field present on `details` overrides the computed
one; the status is appended to history and then every listener is notified
once with the same status values. -/
def setState (m : ConnectionStateManager) (s : ConnectionState)
    (d : StatusDetails) (now : Nat) : Except String ConnectionStateManager :=
  if isValidTransition m.state s then
    let msg :=
      match d.message with
      | some str => if str = "" then getStateMessage s else str
      | none => getStateMessage s
    let status : ConnectionStatus :=
      { state := d.state.getD s
        message := d.message.getD msg
        serverProcessRunning := d.serverProcessRunning.getD m.serverProcessRunning
        timestamp := d.timestamp.getD now
        retryCount := d.retryCount
        lastError := d.lastError }
    .ok { m with
            state := s
            currentMessage := msg
            statusHistory := addToHistory m.statusHistory status
            listeners := m.listeners.map (fun l => l ++ [status]) }
  else
    .error ("Invalid state transition from " ++ m.state.str ++ " to " ++ s.str)

/-- `onStateChange(listener)`: register one more listener (with an empty
observation stream so far). -/
def onStateChange (m : ConnectionStateManager) : ConnectionStateManager :=
  { m with listeners := m.listeners ++ [[]] }

/-- `setServerProcessRunning(bool)`: updates the flag without being a
transition and without notifying. -/
def setServerProcessRunning (m : ConnectionStateManager) (b : Bool) :
    ConnectionStateManager :=
  { m with serverProcessRunning := b }

end ConnectionStateManager

/-- Managers reachable from construction through the class's public
mutators. -/
inductive Reachable : ConnectionStateManager → Prop
  | init (now : Nat) : Reachable (ConnectionStateManager.new now)
  | step (m m' : ConnectionStateManager) (s : ConnectionState) (d : StatusDetails)
      (now : Nat) : Reachable m →
      ConnectionStateManager.setState m s d now = .ok m' → Reachable m'
  | running (m : ConnectionStateManager) (b : Bool) : Reachable m →
      Reachable (ConnectionStateManager.setServerProcessRunning m b)
  | listen (m : ConnectionStateManager) : Reachable m →
      Reachable (ConnectionStateManager.onStateChange m)

/-! ## TimeoutManager (`TimeoutManager.ts`) -/

/-- `TimeoutConfig` from `types.ts`; values are JS numbers, modelled as `ℚ`
so that the integrality validation is expressible. -/
structure TimeoutConfig where
  initializationTimeoutMs : ℚ
  standardRequestTimeoutMs : ℚ
  toolsListTimeoutMs : ℚ
  deriving DecidableEq

/-- `DEFAULT_TIMEOUT_CONFIG`. -/
def DEFAULT_TIMEOUT_CONFIG : TimeoutConfig :=
  { initializationTimeoutMs := 60000
    standardRequestTimeoutMs := 30000
    toolsListTimeoutMs := 60000 }

/-- `Partial<TimeoutConfig>`. -/
structure PartialTimeoutConfig where
  initializationTimeoutMs : Option ℚ := none
  standardRequestTimeoutMs : Option ℚ := none
  toolsListTimeoutMs : Option ℚ := none
  deriving DecidableEq

/-- `ValidationResult` from `types.ts`. -/
structure ValidationResult where
  valid : Bool
  errors : List String
  warnings : List String
  deriving DecidableEq

namespace TimeoutManager

/-- `getTimeoutForRequest(method)`: exact string match on `"initialize"` and
`"tools/list"`, everything else gets the standard timeout. -/
def getTimeoutForRequest (c : TimeoutConfig) (method : String) : ℚ :=
  if method = "initialize" then c.initializationTimeoutMs
  else if method = "tools/list" then c.toolsListTimeoutMs
  else c.standardRequestTimeoutMs

/-- `validateConfig(config)`: each present field is checked independently by
the source's if/else-if chain (below the minimum, above the maximum,
non-integer — the `typeof`-number check cannot fail in a typed embedding —
then the non-fatal too-short warning).  `valid` is `errors.length === 0`. -/
def validateConfig (config : PartialTimeoutConfig) : ValidationResult :=
  let f1 : List String × List String :=
    match config.initializationTimeoutMs with
    | none => ([], [])
    | some v =>
      if v < 1000 then (["initializationTimeoutMs must be at least 1000ms"], [])
      else if v > 300000 then (["initializationTimeoutMs must not exceed 300000ms"], [])
      else if v.den ≠ 1 then (["initializationTimeoutMs must be an integer"], [])
      else if v < 10000 then
        ([], ["initializationTimeoutMs is less than 10 seconds, which may be too short for slow servers"])
      else ([], [])
  let f2 : List String × List String :=
    match config.standardRequestTimeoutMs with
    | none => ([], [])
    | some v =>
      if v < 1000 then (["standardRequestTimeoutMs must be at least 1000ms"], [])
      else if v > 300000 then (["standardRequestTimeoutMs must not exceed 300000ms"], [])
      else if v.den ≠ 1 then (["standardRequestTimeoutMs must be an integer"], [])
      else if v < 5000 then
        ([], ["standardRequestTimeoutMs is less than 5 seconds, which may be too short for some operations"])
      else ([], [])
  let f3 : List String × List String :=
    match config.toolsListTimeoutMs with
    | none => ([], [])
    | some v =>
      if v < 1000 then (["toolsListTimeoutMs must be at least 1000ms"], [])
      else if v > 300000 then (["toolsListTimeoutMs must not exceed 300000ms"], [])
      else if v.den ≠ 1 then (["toolsListTimeoutMs must be an integer"], [])
      else if v < 10000 then
        ([], ["toolsListTimeoutMs is less than 10 seconds, which may be too short for servers with many tools"])
      else ([], [])
  { valid := (f1.1 ++ f2.1 ++ f3.1).isEmpty
    errors := f1.1 ++ f2.1 ++ f3.1
    warnings := f1.2 ++ f2.2 ++ f3.2 }

/-- The spread `{...this.config, ...config}`. -/
def mergeTimeoutConfig (c : TimeoutConfig) (p : PartialTimeoutConfig) : TimeoutConfig :=
  { initializationTimeoutMs := p.initializationTimeoutMs.getD c.initializationTimeoutMs
    standardRequestTimeoutMs := p.standardRequestTimeoutMs.getD c.standardRequestTimeoutMs
    toolsListTimeoutMs := p.toolsListTimeoutMs.getD c.toolsListTimeoutMs }

/-- `updateConfig(config)`: validate the partial configuration, throw the
`"Invalid timeout configuration: <comma-joined errors>"` error when invalid
(the prior configuration survives because nothing has been merged yet),
otherwise merge onto the current configuration. -/
def updateConfig (c : TimeoutConfig) (p : PartialTimeoutConfig) :
    Except String TimeoutConfig :=
  let validation := validateConfig p
  if !validation.valid then
    .error ("Invalid timeout configuration: " ++ String.intercalate ", " validation.errors)
  else
    .ok (mergeTimeoutConfig c p)

/-- The constructor: start from the defaults; a supplied partial
configuration goes through `updateConfig` (and can therefore throw). -/
def new : Option PartialTimeoutConfig → Except String TimeoutConfig
  | none => .ok DEFAULT_TIMEOUT_CONFIG
  | some p => updateConfig DEFAULT_TIMEOUT_CONFIG p

end TimeoutManager

/-! ## ReSyncManager (`ReSyncManager.ts`) -/

/-- `ReSyncConfig` from `types.ts`. -/
structure ReSyncConfig where
  maxRetries : Nat
  retryDelayMs : ℚ
  backoffMultiplier : ℚ
  deriving DecidableEq

/-- `DEFAULT_RESYNC_CONFIG`. -/
def DEFAULT_RESYNC_CONFIG : ReSyncConfig :=
  { maxRetries := 3, retryDelayMs := 2000, backoffMultiplier := 3 / 2 }

/-- The fields of the `ReSyncManager` class. -/
structure ReSyncManager where
  config : ReSyncConfig
  currentAttempt : Nat
  deriving DecidableEq

/-- `ReSyncResult` from `types.ts` (`error` is its message string). -/
structure ReSyncResult where
  success : Bool
  attempts : Nat
  error : Option String
  deriving DecidableEq

/-- Observable steps of one `attemptReSync` call: the backoff sleeps and
the `sendInitialize` invocations, each tagged with the attempt number
(`currentAttempt` at that moment). -/
inductive ReSyncEvent where
  | waited (attempt : Nat) (delayMs : ℚ)
  | invoked (attempt : Nat) (ok : Bool)
  deriving DecidableEq

/-- The complete outcome of one `attemptReSync` call: the returned
`ReSyncResult`, the manager and the state manager afterwards, and the
ordered event trace. -/
structure ReSyncRun where
  result : ReSyncResult
  manager : ReSyncManager
  stateMgr : ConnectionStateManager
  events : List ReSyncEvent
  deriving DecidableEq

/-- `Math.pow` on a rational base with an integer exponent. -/
def powInt (q : ℚ) (z : ℤ) : ℚ :=
  if 0 ≤ z then q ^ z.toNat else (q ^ (-z).toNat)⁻¹

namespace ReSyncManager

/-- `shouldRetry()`. -/
def shouldRetry (m : ReSyncManager) : Bool :=
  m.currentAttempt < m.config.maxRetries

/-- `getNextRetryDelay()`: `retryDelayMs * backoffMultiplier ^ (currentAttempt - 1)`
with JS number subtraction (the exponent is an integer, possibly negative). -/
def getNextRetryDelay (m : ReSyncManager) : ℚ :=
  m.config.retryDelayMs * powInt m.config.backoffMultiplier ((m.currentAttempt : ℤ) - 1)

/-- `reset()`. -/
def reset (m : ReSyncManager) : ReSyncManager :=
  { m with currentAttempt := 0 }

/-- The `catch` block of the loop body of `attemptReSync`: if retries
remain, continue the loop (`k`); otherwise report the Error state carrying
the last failure and return `{success: false, attempts, error}`.  An
exception from this very `setState` would propagate out of
`attemptReSync`. -/
def reSyncCatch (startAttempt : Nat) (now : Nat) (e : String) (m : ReSyncManager)
    (sm : ConnectionStateManager) (evs : List ReSyncEvent)
    (k : Except String ReSyncRun) : Except String ReSyncRun :=
  if m.shouldRetry then k
  else
    match ConnectionStateManager.setState sm .error
        { message := some ("Re-synchronization failed after " ++
            toString (m.currentAttempt - startAttempt) ++ " attempts")
          lastError := some e } now with
    | .error e2 => .error e2
    | .ok smE =>
        .ok { result := { success := false
                          attempts := m.currentAttempt - startAttempt
                          error := some e }
              manager := m
              stateMgr := smE
              events := evs }

/-- The `while (this.shouldRetry())` loop of `attemptReSync`, with `fuel`
bounding the iteration count (chosen at entry as the number of remaining
attempts, which the loop decrements one-for-one).  `calls` counts the
`sendInitialize` invocations so far and indexes the `outcome` oracle
(`none` = the handshake resolved, `some e` = it rejected with `e`). -/
def attemptReSyncGo (startAttempt : Nat) (outcome : Nat → Option String) (now : Nat) :
    Nat → ReSyncManager → ConnectionStateManager → Nat → List ReSyncEvent →
    Except String ReSyncRun
  | 0, m, sm, _, evs =>
      .ok { result := { success := false
                        attempts := m.currentAttempt - startAttempt
                        error := some "Max retries exceeded" }
            manager := m
            stateMgr := sm
            events := evs }
  | fuel + 1, m, sm, calls, evs =>
      if m.shouldRetry then
        let attempt := m.currentAttempt + 1
        let m1 : ReSyncManager := { m with currentAttempt := attempt }
        match ConnectionStateManager.setState sm .timeoutRetrying
            { message := some ("Re-synchronization attempt " ++ toString attempt ++
                "/" ++ toString m.config.maxRetries)
              retryCount := some attempt } now with
        | .error e =>
            reSyncCatch startAttempt now e m1 sm evs
              (attemptReSyncGo startAttempt outcome now fuel m1 sm calls evs)
        | .ok sm1 =>
            let evs1 :=
              if attempt > 1 then evs ++ [.waited attempt m1.getNextRetryDelay]
              else evs
            match outcome calls with
            | none =>
                let evs2 := evs1 ++ [.invoked attempt true]
                let attempts := m1.currentAttempt - startAttempt
                let m2 := m1.reset
                match ConnectionStateManager.setState sm1 .connected
                    { message := some "Re-synchronization successful" } now with
                | .error e =>
                    reSyncCatch startAttempt now e m2 sm1 evs2
                      (attemptReSyncGo startAttempt outcome now fuel m2 sm1 (calls + 1) evs2)
                | .ok sm2 =>
                    .ok { result := { success := true, attempts := attempts, error := none }
                          manager := m2
                          stateMgr := sm2
                          events := evs2 }
            | some e =>
                let evs2 := evs1 ++ [.invoked attempt false]
                reSyncCatch startAttempt now e m1 sm1 evs2
                  (attemptReSyncGo startAttempt outcome now fuel m1 sm1 (calls + 1) evs2)
      else
        .ok { result := { success := false
                          attempts := m.currentAttempt - startAttempt
                          error := some "Max retries exceeded" }
              manager := m
              stateMgr := sm
              events := evs }

/-- `attemptReSync(sendInitialize, stateManager)`. -/
def attemptReSync (m : ReSyncManager) (outcome : Nat → Option String)
    (sm : ConnectionStateManager) (now : Nat) : Except String ReSyncRun :=
  attemptReSyncGo m.currentAttempt outcome now
    (m.config.maxRetries - m.currentAttempt) m sm 0 []

end ReSyncManager

/-! ## BaseMCPClient handlers (`BaseMCPClient.ts`) -/

/-- The observable part of a `ChildProcess` handle used by
`isServerProcessAlive`: recorded exit code, recorded terminating signal,
and the result of the zero-effect `process.kill(pid, 0)` existence
probe. -/
structure ProcessHandle where
  pid : Nat
  exitCode : Option Int
  signalCode : Option String
  probeOk : Bool
  deriving DecidableEq

/-- `isServerProcessAlive()`: false without a process handle, false once an
exit code or a signal is recorded, otherwise the result of the signal-0
probe. -/
def isServerProcessAlive : Option ProcessHandle → Bool
  | none => false
  | some p =>
    if p.exitCode.isSome then false
    else if p.signalCode.isSome then false
    else p.probeOk

/-- An in-flight request (the fields `handleTimeout` reads; the timer and
the promise continuations are implicit in the embedding). -/
structure PendingRequest where
  id : Nat
  method : String
  deriving DecidableEq

/-- The fields of `BaseMCPClient` touched by the timeout / exit / error
handlers.  `lastError` is its message string. -/
structure ClientState where
  pendingRequests : List PendingRequest
  stateMgr : ConnectionStateManager
  reSync : ReSyncManager
  lastError : Option String
  serverProcess : Option ProcessHandle
  deriving DecidableEq

/-- Outcome of one request-timer expiry: the client afterwards, whether the
re-synchronization coordinator was invoked, and the rejection message the
timer callback passes to the caller's promise. -/
structure TimeoutEvent where
  client : ClientState
  resyncInvoked : Bool
  rejectedWith : String
  deriving DecidableEq

/-- The request-timer expiry path of `sendRequest` combined with
`handleTimeout(requestId, method)`: remove the pending entry; when the
method is `"initialize"`, either transition to Error (process dead) or
delegate to `ReSyncManager.attemptReSync` and record `lastError` on
failure; finally the timer callback rejects the caller's future with
`"Request timeout after <ms>ms: <method>"` (for every method, with no
retry and no transition for non-handshake methods). -/
def onRequestTimeout (c : ClientState) (requestId : Nat) (method : String)
    (timeoutMs : Nat) (outcome : Nat → Option String) (now : Nat) :
    Except String TimeoutEvent :=
  if method = "initialize" then
    if !isServerProcessAlive
        ({ c with pendingRequests :=
            c.pendingRequests.filter (fun p => p.id ≠ requestId) } : ClientState).serverProcess then
      match ConnectionStateManager.setState
          ({ c with pendingRequests :=
              c.pendingRequests.filter (fun p => p.id ≠ requestId) } : ClientState).stateMgr
          .error
          { message := some "Server process exited during initialization" } now with
      | .error e => .error e
      | .ok sm =>
          .ok { client :=
                  { c with
                      pendingRequests :=
                        c.pendingRequests.filter (fun p => p.id ≠ requestId),
                      stateMgr := sm }
                resyncInvoked := false
                rejectedWith :=
                  "Request timeout after " ++ toString timeoutMs ++ "ms: " ++ method }
    else
      match ReSyncManager.attemptReSync
          ({ c with pendingRequests :=
              c.pendingRequests.filter (fun p => p.id ≠ requestId) } : ClientState).reSync
          outcome
          ({ c with pendingRequests :=
              c.pendingRequests.filter (fun p => p.id ≠ requestId) } : ClientState).stateMgr
          now with
      | .error e => .error e
      | .ok run =>
          .ok { client :=
                  { c with
                      pendingRequests :=
                        c.pendingRequests.filter (fun p => p.id ≠ requestId),
                      stateMgr := run.stateMgr,
                      reSync := run.manager,
                      lastError :=
                        if run.result.success then c.lastError
                        else some (match run.result.error with
                          | some s => if s = "" then "Re-synchronization failed" else s
                          | none => "Re-synchronization failed") }
                resyncInvoked := true
                rejectedWith :=
                  "Request timeout after " ++ toString timeoutMs ++ "ms: " ++ method }
  else
    .ok { client :=
            { c with pendingRequests :=
                c.pendingRequests.filter (fun p => p.id ≠ requestId) }
          resyncInvoked := false
          rejectedWith :=
            "Request timeout after " ++ toString timeoutMs ++ "ms: " ++ method }

/-- The exit-message template of `handleServerExit` (JS truthiness: an
empty-string signal falls through to the exit-code branch; an exit code of
`0` is still `!== null`). -/
def exitMessage (code : Option Int) (signal : Option String) : String :=
  let codeMsg :=
    match code with
    | some cd => "Server process exited with code: " ++ toString cd
    | none => "Server process exited unexpectedly"
  match signal with
  | some s => if s = "" then codeMsg else "Server process killed by signal: " ++ s
  | none => codeMsg

/-- `clearPendingRequests()`: every pending future is rejected with
`"Connection closed"` (returned as the rejection list) and the registry is
emptied by the caller. -/
def clearPendingRequests (pending : List PendingRequest) : List (Nat × String) :=
  pending.map (fun p => (p.id, "Connection closed"))

/-- `handleServerExit(code, signal)`: clear the running flag, record
`lastError` with the exit-message template, flush every pending request,
and transition to Disconnected. -/
def handleServerExit (c : ClientState) (code : Option Int) (signal : Option String)
    (now : Nat) : Except String (ClientState × List (Nat × String)) :=
  match ConnectionStateManager.setState
      (ConnectionStateManager.setServerProcessRunning c.stateMgr false) .disconnected
      { message := some (exitMessage code signal) } now with
  | .error e => .error e
  | .ok sm1 =>
      .ok ({ c with
               stateMgr := sm1,
               lastError := some (exitMessage code signal),
               pendingRequests := [] },
           clearPendingRequests c.pendingRequests)

/-- `handleServerError(error)`: record `lastError` (the raw error message),
transition to Error with the `"Server process error: <message>"` template —
and, unlike `handleServerExit`, touch no pending request. -/
def handleServerError (c : ClientState) (errMsg : String) (now : Nat) :
    Except String ClientState :=
  match ConnectionStateManager.setState c.stateMgr .error
      { message := some ("Server process error: " ++ errMsg)
        lastError := some errMsg } now with
  | .error e => .error e
  | .ok sm1 => .ok { c with stateMgr := sm1, lastError := some errMsg }

/-! ## Helper lemmas -/

lemma isValidTransition_iff (a b : ConnectionState) :
    ConnectionStateManager.isValidTransition a b = true ↔
      (a = b ∨ b ∈ VALID_TRANSITIONS a) := by
  cases a <;> cases b <;> decide

lemma isValidTransition_to_error (a : ConnectionState) :
    ConnectionStateManager.isValidTransition a .error = true := by
  cases a <;> decide

lemma isValidTransition_to_disconnected (a : ConnectionState) :
    ConnectionStateManager.isValidTransition a .disconnected = true := by
  cases a <;> decide

/-! ## Claim theorems -/

/-- C1: `setState` on a manager in state `from` succeeds exactly when
`from = to` or `to` is listed for `from` in `VALID_TRANSITIONS`; a rejected
transition returns only the error `"Invalid state transition from <from> to
<to>"`, handing back no updated manager — state, history and every
listener's observation stream are exactly those of the input manager (no
partial update, no notification). -/
theorem setState_transition_contract (m : ConnectionStateManager)
    (s : ConnectionState) (d : StatusDetails) (now : Nat) :
    ((∃ m', ConnectionStateManager.setState m s d now = Except.ok m') ↔
      (m.state = s ∨ s ∈ VALID_TRANSITIONS m.state)) ∧
    ∀ msg, ConnectionStateManager.setState m s d now = Except.error msg →
      msg = "Invalid state transition from " ++ m.state.str ++ " to " ++ s.str := by
  by_cases h : ConnectionStateManager.isValidTransition m.state s
  · refine ⟨⟨fun _ => (isValidTransition_iff _ _).mp h, fun _ => ?_⟩, fun msg hmsg => ?_⟩
    · exact ⟨_, by rw [ConnectionStateManager.setState, if_pos h]⟩
    · simp [ConnectionStateManager.setState, h] at hmsg
  · have h' : ConnectionStateManager.isValidTransition m.state s = false := by
      simpa using h
    constructor
    · constructor
      · rintro ⟨m', hm⟩
        simp [ConnectionStateManager.setState, h'] at hm
      · intro hv
        exact absurd ((isValidTransition_iff _ _).mpr hv) (by simp [h'])
    · intro msg hmsg
      simpa [ConnectionStateManager.setState, h'] using hmsg.symm

/-- Witness for C1: from the freshly constructed manager (state
Disconnected), `setState` to Connecting succeeds, and the rejection message
for the invalid Disconnected→Connected transition instantiates the
template. -/
theorem setState_transition_contract_witness :
    (∃ m', ConnectionStateManager.setState (ConnectionStateManager.new 0)
      .connecting {} 1 = Except.ok m') ∧
    ("Invalid state transition from disconnected to connected" =
      "Invalid state transition from " ++ (ConnectionStateManager.new 0).state.str ++
        " to " ++ ConnectionState.connected.str) :=
  ⟨(setState_transition_contract (ConnectionStateManager.new 0) .connecting {} 1).1.mpr
      (by decide),
   (setState_transition_contract (ConnectionStateManager.new 0) .connected {} 1).2 _ rfl⟩

/-- Destructor for a successful `setState`: the resulting manager is the
input manager with the new state, a new current message, the composed
status appended to the history, and that same status delivered to every
listener; the status carries exactly the details' auxiliary fields. -/
lemma setState_ok_destruct {m : ConnectionStateManager} {s : ConnectionState}
    {d : StatusDetails} {now : Nat} {m' : ConnectionStateManager}
    (h : ConnectionStateManager.setState m s d now = Except.ok m') :
    ∃ st msg, m' =
      { state := s
        listeners := m.listeners.map (fun l => l ++ [st])
        statusHistory := ConnectionStateManager.addToHistory m.statusHistory st
        serverProcessRunning := m.serverProcessRunning
        currentMessage := msg } ∧
      st.retryCount = d.retryCount ∧ st.lastError = d.lastError := by
  by_cases hv : ConnectionStateManager.isValidTransition m.state s
  · rw [ConnectionStateManager.setState, if_pos hv] at h
    exact ⟨_, _, (Except.ok.inj h).symm, rfl, rfl⟩
  · rw [ConnectionStateManager.setState, if_neg hv] at h
    exact Except.noConfusion h

/-- C5: a single successful `setState` delivers exactly one new
notification to every registered listener, each carrying the same status
value — hence all N notifications have equal `state`, `message`,
`serverProcessRunning` and `timestamp`. -/
theorem setState_listener_fanout (m : ConnectionStateManager) (s : ConnectionState)
    (d : StatusDetails) (now : Nat) (m' : ConnectionStateManager)
    (h : ConnectionStateManager.setState m s d now = Except.ok m') :
    ∃ st : ConnectionStatus, m'.listeners = m.listeners.map (fun l => l ++ [st]) := by
  obtain ⟨st, msg, rfl, -, -⟩ := setState_ok_destruct h
  exact ⟨st, rfl⟩

/-- Two listeners registered before the C5 witness transition. -/
def c5base : ConnectionStateManager :=
  ConnectionStateManager.onStateChange
    (ConnectionStateManager.onStateChange (ConnectionStateManager.new 0))

/-- The C5 witness manager after one successful transition. -/
def c5m : ConnectionStateManager :=
  (ConnectionStateManager.setState c5base .connecting {} 1).toOption.getD
    (ConnectionStateManager.new 0)

/-- Witness for C5 with two registered listeners. -/
theorem setState_listener_fanout_witness :
    ∃ st : ConnectionStatus,
      c5m.listeners = c5base.listeners.map (fun l => l ++ [st]) :=
  setState_listener_fanout c5base .connecting {} 1 c5m rfl

/-- `addToHistory` appends the status as the newest (last) entry. -/
lemma addToHistory_getLast (h : List ConnectionStatus) (st : ConnectionStatus) :
    (ConnectionStateManager.addToHistory h st).getLast? = some st := by
  unfold ConnectionStateManager.addToHistory
  split
  · have hle : (h ++ [st]).length - maxHistorySize ≤ h.length := by
      simp only [List.length_append, List.length_singleton, maxHistorySize]
      omega
    rw [List.drop_append_of_le_length hle]
    exact List.getLast?_concat _
  · exact List.getLast?_concat _

/-- C6 amended: `getStatus()` always returns exactly the four fields
`state`, `message`, `serverProcessRunning` and a fresh `timestamp`, and
never includes `retryCount`/`lastError` — even though a successful
`setState` does place the details' auxiliary fields on the status record it
appends to history (and delivers to listeners). -/
theorem getStatus_shape (m : ConnectionStateManager) (s : ConnectionState)
    (d : StatusDetails) (now now2 : Nat) :
    ConnectionStateManager.getStatus m now =
      { state := m.state
        message := m.currentMessage
        serverProcessRunning := m.serverProcessRunning
        timestamp := now
        retryCount := none
        lastError := none } ∧
    (∀ m', ConnectionStateManager.setState m s d now2 = Except.ok m' →
      ∃ st, m'.statusHistory.getLast? = some st ∧
        st.retryCount = d.retryCount ∧ st.lastError = d.lastError) := by
  refine ⟨rfl, fun m' h => ?_⟩
  obtain ⟨st, msg, rfl, h1, h2⟩ := setState_ok_destruct h
  exact ⟨st, addToHistory_getLast _ _, h1, h2⟩

/-- Details carrying both auxiliary fields, for the C6 counterexample. -/
def c6details : StatusDetails :=
  { retryCount := some 2, lastError := some "previous failure" }

/-- The manager after a successful transition whose details carried
`retryCount` and `lastError`. -/
def c6m : ConnectionStateManager :=
  (ConnectionStateManager.setState (ConnectionStateManager.new 0) .connecting
    c6details 1).toOption.getD (ConnectionStateManager.new 0)

/-- C6 counterexample: the last transition's details carried `retryCount`
and `lastError`, the transition succeeded, yet `getStatus` reports
neither — refuting the claim that the auxiliary fields are echoed exactly
when present on the last transition's details. -/
theorem getStatus_no_echo_cex :
    c6details.retryCount = some 2 ∧
    c6details.lastError = some "previous failure" ∧
    (ConnectionStateManager.setState (ConnectionStateManager.new 0) .connecting
      c6details 1).isOk = true ∧
    (ConnectionStateManager.getStatus c6m 2).retryCount = none ∧
    (ConnectionStateManager.getStatus c6m 2).lastError = none :=
  ⟨rfl, rfl, rfl, rfl, rfl⟩

/-- Witness for the C6 amended theorem at the counterexample input. -/
theorem getStatus_shape_witness :
    ∃ st, c6m.statusHistory.getLast? = some st ∧
      st.retryCount = c6details.retryCount ∧ st.lastError = c6details.lastError :=
  (getStatus_shape (ConnectionStateManager.new 0) .connecting c6details 0 1).2 c6m rfl

/-- `addToHistory` equals appending then dropping the overflow from the
front (FIFO eviction of the oldest entries). -/
lemma addToHistory_eq_drop (h : List ConnectionStatus) (st : ConnectionStatus) :
    ConnectionStateManager.addToHistory h st =
      (h ++ [st]).drop ((h.length + 1) - maxHistorySize) := by
  unfold ConnectionStateManager.addToHistory
  split
  · simp
  · next hle =>
    have h0 : h.length + 1 - maxHistorySize = 0 := by
      simp only [List.length_append, List.length_singleton] at hle
      omega
    simp [h0]

/-- `addToHistory` preserves the history bound. -/
lemma addToHistory_length_le (h : List ConnectionStatus) (st : ConnectionStatus)
    (hle : h.length ≤ maxHistorySize) :
    (ConnectionStateManager.addToHistory h st).length ≤ maxHistorySize := by
  unfold ConnectionStateManager.addToHistory
  split
  · simp only [List.length_drop, List.length_append, List.length_singleton]
    omega
  · next h2 =>
    simp only [List.length_append, List.length_singleton] at h2 ⊢
    omega

/-- C9: the history is seeded with exactly the one Disconnected entry at
construction; every successful `setState` appends exactly one entry,
evicting from the front (oldest first) once the bound is exceeded; and
along any reachable sequence of operations the history never exceeds 50
entries. -/
theorem history_bound_fifo :
    (∀ now, (ConnectionStateManager.new now).statusHistory =
      [{ state := .disconnected
         message := "Initial state"
         serverProcessRunning := false
         timestamp := now
         retryCount := none
         lastError := none }]) ∧
    (∀ m s d now m', ConnectionStateManager.setState m s d now = Except.ok m' →
      ∃ st, m'.statusHistory =
        (m.statusHistory ++ [st]).drop ((m.statusHistory.length + 1) - maxHistorySize)) ∧
    (∀ m, Reachable m → m.statusHistory.length ≤ maxHistorySize) := by
  refine ⟨fun now => rfl, fun m s d now m' h => ?_, fun m hr => ?_⟩
  · obtain ⟨st, msg, rfl, -, -⟩ := setState_ok_destruct h
    exact ⟨st, addToHistory_eq_drop _ _⟩
  · induction hr with
    | init now => simp [ConnectionStateManager.new, ConnectionStateManager.addToHistory,
        maxHistorySize]
    | step m m' s d now hm hset ih =>
        obtain ⟨st, msg, rfl, -, -⟩ := setState_ok_destruct hset
        exact addToHistory_length_le _ _ ih
    | running m b hm ih => simpa [ConnectionStateManager.setServerProcessRunning] using ih
    | listen m hm ih => simpa [ConnectionStateManager.onStateChange] using ih

/-- Witness for C9 at concrete inputs. -/
theorem history_bound_fifo_witness :
    (∃ st, c6m.statusHistory =
      ((ConnectionStateManager.new 0).statusHistory ++ [st]).drop
        (((ConnectionStateManager.new 0).statusHistory.length + 1) - maxHistorySize)) ∧
    (ConnectionStateManager.new 0).statusHistory.length ≤ maxHistorySize :=
  ⟨history_bound_fifo.2.1 (ConnectionStateManager.new 0) .connecting c6details 1 c6m rfl,
   history_bound_fifo.2.2 (ConnectionStateManager.new 0) (Reachable.init 0)⟩

/-- C7: `getTimeoutForRequest` maps `"initialize"` to the configured
initialization timeout, `"tools/list"` to the configured tools-list
timeout, and every other method string (no partial matches, no case
folding) to the configured standard timeout; with no configuration supplied
the constructor keeps the defaults, giving 60000 / 60000 / 30000. -/
theorem timeout_method_mapping (c : TimeoutConfig) (method : String) :
    (method = "initialize" →
      TimeoutManager.getTimeoutForRequest c method = c.initializationTimeoutMs) ∧
    (method = "tools/list" →
      TimeoutManager.getTimeoutForRequest c method = c.toolsListTimeoutMs) ∧
    (method ≠ "initialize" → method ≠ "tools/list" →
      TimeoutManager.getTimeoutForRequest c method = c.standardRequestTimeoutMs) ∧
    TimeoutManager.new none = Except.ok DEFAULT_TIMEOUT_CONFIG ∧
    TimeoutManager.getTimeoutForRequest DEFAULT_TIMEOUT_CONFIG "initialize" = 60000 ∧
    TimeoutManager.getTimeoutForRequest DEFAULT_TIMEOUT_CONFIG "tools/list" = 60000 ∧
    (method ≠ "initialize" → method ≠ "tools/list" →
      TimeoutManager.getTimeoutForRequest DEFAULT_TIMEOUT_CONFIG method = 30000) := by
  refine ⟨fun h1 => ?_, fun h2 => ?_, fun h1 h2 => ?_, rfl, rfl, rfl, fun h1 h2 => ?_⟩
  · simp [TimeoutManager.getTimeoutForRequest, h1]
  · simp [TimeoutManager.getTimeoutForRequest, h2]
  · simp [TimeoutManager.getTimeoutForRequest, h1, h2]
  · simp [TimeoutManager.getTimeoutForRequest, h1, h2, DEFAULT_TIMEOUT_CONFIG]

/-- Witness for C7: an unrelated method name (`"tools/call"`, which starts
with `"tools/"` but is not `"tools/list"`) gets the standard timeout. -/
theorem timeout_method_mapping_witness :
    TimeoutManager.getTimeoutForRequest DEFAULT_TIMEOUT_CONFIG "initialize" = 60000 ∧
    TimeoutManager.getTimeoutForRequest DEFAULT_TIMEOUT_CONFIG "tools/call" = 30000 :=
  ⟨(timeout_method_mapping DEFAULT_TIMEOUT_CONFIG "tools/call").2.2.2.2.1,
   (timeout_method_mapping DEFAULT_TIMEOUT_CONFIG "tools/call").2.2.2.2.2.2
      (by decide) (by decide)⟩

/-- C8: `updateConfig` merges the partial configuration onto the current
one exactly when `validateConfig` reports no errors; otherwise it throws
`"Invalid timeout configuration: <comma-joined errors>"` and — since
nothing was merged before validation — the prior configuration survives
unchanged (no partial apply). -/
theorem updateConfig_no_partial_apply (c : TimeoutConfig) (p : PartialTimeoutConfig) :
    TimeoutManager.updateConfig c p =
      (if (TimeoutManager.validateConfig p).valid = true then
        Except.ok (TimeoutManager.mergeTimeoutConfig c p)
      else
        Except.error ("Invalid timeout configuration: " ++
          String.intercalate ", " (TimeoutManager.validateConfig p).errors)) ∧
    ((TimeoutManager.validateConfig p).valid = true ↔
      (TimeoutManager.validateConfig p).errors = []) := by
  constructor
  · by_cases h : (TimeoutManager.validateConfig p).valid
    · simp [TimeoutManager.updateConfig, h]
    · simp only [Bool.not_eq_true] at h
      simp [TimeoutManager.updateConfig, h]
  · have hv : (TimeoutManager.validateConfig p).valid =
        (TimeoutManager.validateConfig p).errors.isEmpty := rfl
    rw [hv, List.isEmpty_iff]

/-- C10: once the internal attempt counter has reached `maxRetries`, every
further `attemptReSync` call runs the loop zero times — it invokes the
handshake function zero times (empty event trace), performs no state
transition (the state manager is returned untouched), and returns
immediately with `{success: false, attempts: 0}` and the error
`"Max retries exceeded"`; `reset()` (which `reconnect()` invokes) restores
the counter to 0, making retrying possible again. -/
theorem reSync_exhausted_blocks (m : ReSyncManager) (outcome : Nat → Option String)
    (sm : ConnectionStateManager) (now : Nat)
    (h : m.currentAttempt = m.config.maxRetries) :
    ReSyncManager.attemptReSync m outcome sm now =
      Except.ok { result := { success := false
                              attempts := 0
                              error := some "Max retries exceeded" }
                  manager := m
                  stateMgr := sm
                  events := [] } ∧
    (ReSyncManager.reset m).currentAttempt = 0 ∧
    (0 < m.config.maxRetries → (ReSyncManager.reset m).shouldRetry = true) := by
  refine ⟨?_, rfl, fun hpos => ?_⟩
  · have hf : m.config.maxRetries - m.currentAttempt = 0 := by omega
    rw [ReSyncManager.attemptReSync, hf]
    simp [ReSyncManager.attemptReSyncGo]
  · simp only [ReSyncManager.reset, ReSyncManager.shouldRetry, decide_eq_true_eq]
    exact hpos

/-- A manager whose attempt counter equals `maxRetries`, for the C10
witness. -/
def c10m : ReSyncManager := { config := DEFAULT_RESYNC_CONFIG, currentAttempt := 3 }

/-- Witness for C10 at concrete inputs. -/
theorem reSync_exhausted_blocks_witness :
    ReSyncManager.attemptReSync c10m (fun _ => none) (ConnectionStateManager.new 0) 0 =
      Except.ok { result := { success := false
                              attempts := 0
                              error := some "Max retries exceeded" }
                  manager := c10m
                  stateMgr := ConnectionStateManager.new 0
                  events := [] } ∧
    (ReSyncManager.reset c10m).currentAttempt = 0 ∧
    (0 < c10m.config.maxRetries → (ReSyncManager.reset c10m).shouldRetry = true) :=
  reSync_exhausted_blocks c10m (fun _ => none) (ConnectionStateManager.new 0) 0 rfl

/-- For an exponent of the form `(a : ℤ) - 1` with `1 ≤ a`, `Math.pow`
agrees with the natural-number power at `a - 1`. -/
lemma powInt_natCast_sub_one (q : ℚ) (a : ℕ) (h : 1 ≤ a) :
    powInt q ((a : ℤ) - 1) = q ^ (a - 1) := by
  unfold powInt
  rw [if_pos (by omega : (0 : ℤ) ≤ (a : ℤ) - 1)]
  congr 1
  omega

/-- Every backoff sleep in the trace belongs to an attempt numbered ≥ 2 and
lasts `retryDelayMs * backoffMultiplier ^ (attempt - 1)` ms. -/
def waitsSpec (cfg : ReSyncConfig) (evs : List ReSyncEvent) : Prop :=
  ∀ n dl, ReSyncEvent.waited n dl ∈ evs →
    2 ≤ n ∧ dl = cfg.retryDelayMs * cfg.backoffMultiplier ^ (n - 1)

lemma waitsSpec_nil (cfg : ReSyncConfig) : waitsSpec cfg [] := by
  intro n dl hmem
  cases hmem

lemma waitsSpec_append {cfg : ReSyncConfig} {evs1 evs2 : List ReSyncEvent}
    (h1 : waitsSpec cfg evs1) (h2 : waitsSpec cfg evs2) :
    waitsSpec cfg (evs1 ++ evs2) := by
  intro n dl hmem
  rcases List.mem_append.mp hmem with hm | hm
  · exact h1 n dl hm
  · exact h2 n dl hm

lemma waitsSpec_invoked (cfg : ReSyncConfig) (a : Nat) (ok : Bool) :
    waitsSpec cfg [.invoked a ok] := by
  intro n dl hmem
  simp only [List.mem_singleton] at hmem
  cases hmem

lemma waitsSpec_waited (m1 : ReSyncManager) (h1 : 1 < m1.currentAttempt) :
    waitsSpec m1.config [.waited m1.currentAttempt m1.getNextRetryDelay] := by
  intro n dl hmem
  simp only [List.mem_singleton, ReSyncEvent.waited.injEq] at hmem
  obtain ⟨rfl, rfl⟩ := hmem
  refine ⟨h1, ?_⟩
  unfold ReSyncManager.getNextRetryDelay
  rw [powInt_natCast_sub_one _ _ (by omega)]

lemma reSyncCatch_waits {cfg : ReSyncConfig} {startAttempt now : Nat} {e : String}
    {m : ReSyncManager} {sm : ConnectionStateManager} {evs : List ReSyncEvent}
    {k : Except String ReSyncRun} {r : ReSyncRun}
    (hr : ReSyncManager.reSyncCatch startAttempt now e m sm evs k = Except.ok r)
    (hk : ∀ r', k = Except.ok r' → waitsSpec cfg r'.events)
    (hevs : waitsSpec cfg evs) :
    waitsSpec cfg r.events := by
  unfold ReSyncManager.reSyncCatch at hr
  split at hr
  · exact hk r hr
  · split at hr
    · exact Except.noConfusion hr
    · injection hr with h
      subst h
      exact hevs

lemma attemptReSyncGo_waits (startAttempt : Nat) (outcome : Nat → Option String)
    (now : Nat) :
    ∀ (fuel : Nat) (m : ReSyncManager) (sm : ConnectionStateManager) (calls : Nat)
      (evs : List ReSyncEvent) (r : ReSyncRun),
      ReSyncManager.attemptReSyncGo startAttempt outcome now fuel m sm calls evs =
        Except.ok r →
      waitsSpec m.config evs → waitsSpec m.config r.events := by
  intro fuel
  induction fuel with
  | zero =>
    intro m sm calls evs r hr hevs
    simp only [ReSyncManager.attemptReSyncGo] at hr
    injection hr with h
    subst h
    exact hevs
  | succ fuel ih =>
    intro m sm calls evs r hr hevs
    rw [ReSyncManager.attemptReSyncGo] at hr
    split at hr
    · simp only [] at hr
      split at hr
      · -- the TIMEOUT_RETRYING setState threw: caught, no event appended
        exact reSyncCatch_waits hr
          (fun r' h' =>
            ih { m with currentAttempt := m.currentAttempt + 1 } sm calls evs r' h' hevs)
          hevs
      · -- setState succeeded
        have hevs1 : waitsSpec m.config
            (if m.currentAttempt + 1 > 1 then
              evs ++ [.waited (m.currentAttempt + 1)
                (ReSyncManager.getNextRetryDelay { m with currentAttempt := m.currentAttempt + 1 })]
            else evs) := by
          split
          · next hgt =>
            exact waitsSpec_append hevs
              (waitsSpec_waited { m with currentAttempt := m.currentAttempt + 1 } hgt)
          · exact hevs
        split at hr
        · -- handshake succeeded
          split at hr
          · -- the CONNECTED setState threw: caught, loop may continue
            exact reSyncCatch_waits hr
              (fun r' h' =>
                ih ({ m with currentAttempt := m.currentAttempt + 1 }.reset) _ _ _ r' h'
                  (waitsSpec_append hevs1 (waitsSpec_invoked _ _ _)))
              (waitsSpec_append hevs1 (waitsSpec_invoked _ _ _))
          · -- success: return
            injection hr with h
            subst h
            exact waitsSpec_append hevs1 (waitsSpec_invoked _ _ _)
        · -- handshake failed: caught
          exact reSyncCatch_waits hr
            (fun r' h' =>
              ih { m with currentAttempt := m.currentAttempt + 1 } _ _ _ r' h'
                (waitsSpec_append hevs1 (waitsSpec_invoked _ _ _)))
            (waitsSpec_append hevs1 (waitsSpec_invoked _ _ _))
    · injection hr with h
      subst h
      exact hevs

/-- C2 amended: in any `attemptReSync` run, no wait ever precedes attempt 1
(every recorded wait belongs to an attempt numbered N ≥ 2), and the wait
inserted before invoking the handshake on attempt N equals
`retryDelayMs × backoffMultiplier ^ (N − 1)` milliseconds (exponent N − 1,
not the claimed N − 2). -/
theorem reSync_backoff_wait (m : ReSyncManager) (outcome : Nat → Option String)
    (sm : ConnectionStateManager) (now : Nat) (r : ReSyncRun)
    (h : ReSyncManager.attemptReSync m outcome sm now = Except.ok r) :
    ∀ n dl, ReSyncEvent.waited n dl ∈ r.events →
      2 ≤ n ∧ dl = m.config.retryDelayMs * m.config.backoffMultiplier ^ (n - 1) :=
  attemptReSyncGo_waits m.currentAttempt outcome now
    (m.config.maxRetries - m.currentAttempt) m sm 0 [] r h (waitsSpec_nil _)

/-- Default-valued configuration for the C2 counterexample run. -/
def c2cfg : ReSyncConfig :=
  { maxRetries := 3, retryDelayMs := 2000, backoffMultiplier := 3 / 2 }

/-- A Connected state manager for the C2 counterexample run. -/
def c2sm : ConnectionStateManager :=
  { state := .connected
    listeners := []
    statusHistory := []
    serverProcessRunning := true
    currentMessage := "Connected to server" }

/-- The C2 counterexample run: fresh counter, every handshake attempt
fails. -/
def c2run : ReSyncRun :=
  (ReSyncManager.attemptReSync ⟨c2cfg, 0⟩ (fun _ => some "handshake failed")
      c2sm 0).toOption.getD
    { result := { success := false, attempts := 0, error := none }
      manager := ⟨c2cfg, 0⟩
      stateMgr := c2sm
      events := [] }

/-- C2 counterexample: with `retryDelayMs = 2000` and
`backoffMultiplier = 3/2`, the wait recorded before attempt 2 is 3000 ms
(the code's exponent is N − 1), while the claimed formula
`retryDelayMs × backoffMultiplier ^ (N − 2)` predicts 2000 ms. -/
theorem reSync_backoff_wait_cex :
    c2run.events =
      [.invoked 1 false,
       .waited 2 (ReSyncManager.getNextRetryDelay ⟨c2cfg, 2⟩), .invoked 2 false,
       .waited 3 (ReSyncManager.getNextRetryDelay ⟨c2cfg, 3⟩), .invoked 3 false] ∧
    ReSyncManager.getNextRetryDelay ⟨c2cfg, 2⟩ = 3000 ∧
    c2cfg.retryDelayMs * c2cfg.backoffMultiplier ^ (2 - 2 : ℕ) = 2000 ∧
    (3000 : ℚ) ≠ 2000 := by
  refine ⟨rfl, ?_, ?_, by norm_num⟩
  · show c2cfg.retryDelayMs * powInt c2cfg.backoffMultiplier (((2 : ℕ) : ℤ) - 1) = 3000
    rw [powInt_natCast_sub_one _ _ (by norm_num)]
    norm_num [c2cfg]
  · norm_num [c2cfg]

/-- Witness for the C2 amended theorem: the wait recorded before attempt 2
of the counterexample run satisfies the N − 1 exponent formula. -/
theorem reSync_backoff_wait_witness :
    2 ≤ 2 ∧ ReSyncManager.getNextRetryDelay ⟨c2cfg, 2⟩ =
      c2cfg.retryDelayMs * c2cfg.backoffMultiplier ^ (2 - 1 : ℕ) :=
  reSync_backoff_wait ⟨c2cfg, 0⟩ (fun _ => some "handshake failed") c2sm 0 c2run rfl
    2 (ReSyncManager.getNextRetryDelay ⟨c2cfg, 2⟩)
    (List.Mem.tail _ (List.Mem.head _))

/-- A transition to Error is permitted from every state, so `setState` to
Error always succeeds. -/
lemma setState_to_error_ok (m : ConnectionStateManager) (d : StatusDetails) (now : Nat) :
    ∃ m', ConnectionStateManager.setState m .error d now = Except.ok m' :=
  ⟨_, by rw [ConnectionStateManager.setState, if_pos (isValidTransition_to_error m.state)]⟩

/-- A transition to Disconnected is permitted from every state, so
`setState` to Disconnected always succeeds. -/
lemma setState_to_disconnected_ok (m : ConnectionStateManager) (d : StatusDetails)
    (now : Nat) :
    ∃ m', ConnectionStateManager.setState m .disconnected d now = Except.ok m' :=
  ⟨_, by rw [ConnectionStateManager.setState,
    if_pos (isValidTransition_to_disconnected m.state)]⟩

/-- Field values of the manager after a successful `setState`. -/
lemma setState_ok_state_msg {m : ConnectionStateManager} {s : ConnectionState}
    {d : StatusDetails} {now : Nat} {m' : ConnectionStateManager}
    (h : ConnectionStateManager.setState m s d now = Except.ok m') :
    m'.state = s ∧
    m'.currentMessage = (match d.message with
      | some str => if str = "" then ConnectionStateManager.getStateMessage s else str
      | none => ConnectionStateManager.getStateMessage s) ∧
    m'.serverProcessRunning = m.serverProcessRunning := by
  by_cases hv : ConnectionStateManager.isValidTransition m.state s
  · rw [ConnectionStateManager.setState, if_pos hv] at h
    injection h with h
    subst h
    exact ⟨rfl, rfl, rfl⟩
  · rw [ConnectionStateManager.setState, if_neg hv] at h
    exact Except.noConfusion h

/-- C3: on a request-timer expiry the re-synchronization coordinator is
invoked exactly when the timed-out method is `"initialize"` and the server
process is judged alive; when the method is `"initialize"` but the process
is not alive, no resync happens and the state goes directly to Error with
`"Server process exited during initialization"`; for every other method the
pending entry is removed and the caller's future is rejected with the
timeout error, with no retry and no state transition. -/
theorem request_timeout_dispatch (c : ClientState) (rid : Nat) (method : String)
    (ms : Nat) (outcome : Nat → Option String) (now : Nat) :
    (∀ ev, onRequestTimeout c rid method ms outcome now = Except.ok ev →
      (ev.resyncInvoked = true ↔
        (method = "initialize" ∧ isServerProcessAlive c.serverProcess = true))) ∧
    (method = "initialize" → isServerProcessAlive c.serverProcess = false →
      ∃ ev, onRequestTimeout c rid method ms outcome now = Except.ok ev ∧
        ev.resyncInvoked = false ∧
        ev.client.stateMgr.state = .error ∧
        ev.client.stateMgr.currentMessage = "Server process exited during initialization" ∧
        ev.client.pendingRequests = c.pendingRequests.filter (fun p => p.id ≠ rid)) ∧
    (method ≠ "initialize" →
      ∃ ev, onRequestTimeout c rid method ms outcome now = Except.ok ev ∧
        ev.resyncInvoked = false ∧
        ev.client.stateMgr = c.stateMgr ∧
        ev.client.reSync = c.reSync ∧
        ev.client.pendingRequests = c.pendingRequests.filter (fun p => p.id ≠ rid) ∧
        ev.rejectedWith = "Request timeout after " ++ toString ms ++ "ms: " ++ method) := by
  refine ⟨fun ev hev => ?_, fun hm ha => ?_, fun hm => ?_⟩
  · by_cases hm : method = "initialize"
    · by_cases ha : isServerProcessAlive c.serverProcess
      · cases hres : ReSyncManager.attemptReSync
            ({ c with pendingRequests :=
                c.pendingRequests.filter (fun p => p.id ≠ rid)} : ClientState).reSync
            outcome
            ({ c with pendingRequests :=
                c.pendingRequests.filter (fun p => p.id ≠ rid)} : ClientState).stateMgr
            now with
        | error e =>
          have heq : onRequestTimeout c rid method ms outcome now = Except.error e := by
            unfold onRequestTimeout
            rw [if_pos hm, if_neg (by simp [ha]), hres]
          rw [heq] at hev
          exact Except.noConfusion hev
        | ok run =>
          unfold onRequestTimeout at hev
          rw [if_pos hm, if_neg (by simp [ha]), hres] at hev
          injection hev with h
          subst h
          simp [hm, ha]
      · obtain ⟨sm1, hsm⟩ := setState_to_error_ok
          ({ c with pendingRequests :=
              c.pendingRequests.filter (fun p => p.id ≠ rid)} : ClientState).stateMgr
          { message := some "Server process exited during initialization" } now
        unfold onRequestTimeout at hev
        rw [if_pos hm,
          if_pos (by simp only [Bool.not_eq_true] at ha; simp [ha]), hsm] at hev
        injection hev with h
        subst h
        simp [ha]
    · have heq : onRequestTimeout c rid method ms outcome now =
          Except.ok { client :=
                        { c with pendingRequests :=
                            c.pendingRequests.filter (fun p => p.id ≠ rid) }
                      resyncInvoked := false
                      rejectedWith :=
                        "Request timeout after " ++ toString ms ++ "ms: " ++ method } := by
        unfold onRequestTimeout
        rw [if_neg hm]
      rw [heq] at hev
      injection hev with h
      subst h
      simp [hm]
  · obtain ⟨sm1, hsm⟩ := setState_to_error_ok
      ({ c with pendingRequests :=
          c.pendingRequests.filter (fun p => p.id ≠ rid)} : ClientState).stateMgr
      { message := some "Server process exited during initialization" } now
    obtain ⟨hst, hmsg, -⟩ := setState_ok_state_msg hsm
    have heq : onRequestTimeout c rid method ms outcome now =
        Except.ok { client :=
                      { c with
                          pendingRequests :=
                            c.pendingRequests.filter (fun p => p.id ≠ rid),
                          stateMgr := sm1 }
                    resyncInvoked := false
                    rejectedWith :=
                      "Request timeout after " ++ toString ms ++ "ms: " ++ method } := by
      unfold onRequestTimeout
      rw [if_pos hm, if_pos (by simp [ha]), hsm]
    exact ⟨_, heq, rfl, hst, hmsg.trans rfl, rfl⟩
  · have heq : onRequestTimeout c rid method ms outcome now =
        Except.ok { client :=
                      { c with pendingRequests :=
                          c.pendingRequests.filter (fun p => p.id ≠ rid) }
                    resyncInvoked := false
                    rejectedWith :=
                      "Request timeout after " ++ toString ms ++ "ms: " ++ method } := by
      unfold onRequestTimeout
      rw [if_neg hm]
    exact ⟨_, heq, rfl, rfl, rfl, rfl, rfl⟩

/-- C4 amended: both handlers record `lastError` and transition the state
(Disconnected for an observed exit, Error for a spawn/runtime error), and
the exit handler flushes every pending request (cancelling its timer and
rejecting it with "Connection closed") — but the error handler leaves the
pending requests untouched (it performs no flush). -/
theorem server_exit_error_handlers (c : ClientState) (code : Option Int)
    (signal : Option String) (errMsg : String) (now : Nat) :
    (∃ c2 rej, handleServerExit c code signal now = Except.ok (c2, rej) ∧
      c2.pendingRequests = [] ∧
      rej = c.pendingRequests.map (fun p => (p.id, "Connection closed")) ∧
      c2.lastError = some (exitMessage code signal) ∧
      c2.stateMgr.state = .disconnected ∧
      c2.stateMgr.serverProcessRunning = false) ∧
    (∃ c2, handleServerError c errMsg now = Except.ok c2 ∧
      c2.lastError = some errMsg ∧
      c2.stateMgr.state = .error ∧
      c2.stateMgr.currentMessage = "Server process error: " ++ errMsg ∧
      c2.pendingRequests = c.pendingRequests) := by
  constructor
  · obtain ⟨sm1, hsm⟩ := setState_to_disconnected_ok
      (ConnectionStateManager.setServerProcessRunning c.stateMgr false)
      { message := some (exitMessage code signal) } now
    obtain ⟨hst, -, hrun⟩ := setState_ok_state_msg hsm
    have heq : handleServerExit c code signal now =
        Except.ok ({ c with
                       stateMgr := sm1,
                       lastError := some (exitMessage code signal),
                       pendingRequests := [] },
                   c.pendingRequests.map (fun p => (p.id, "Connection closed"))) := by
      unfold handleServerExit
      rw [hsm]
      rfl
    exact ⟨_, _, heq, rfl, rfl, rfl, hst, hrun.trans rfl⟩
  · obtain ⟨sm1, hsm⟩ := setState_to_error_ok c.stateMgr
      { message := some ("Server process error: " ++ errMsg), lastError := some errMsg } now
    obtain ⟨hst, hmsg, -⟩ := setState_ok_state_msg hsm
    have hne : ("Server process error: " ++ errMsg) ≠ "" := by
      intro h0
      have hlen := congrArg String.length h0
      rw [String.length_append] at hlen
      have h22 : ("Server process error: " : String).length = 22 := rfl
      rw [h22] at hlen
      simp at hlen
    have heq : handleServerError c errMsg now =
        Except.ok { c with stateMgr := sm1, lastError := some errMsg } := by
      unfold handleServerError
      rw [hsm]
    exact ⟨_, heq, rfl, hst, hmsg.trans (if_neg hne), rfl⟩

/-- A client with one registered pending request, for the C3 witness and
the C4 counterexample. -/
def c3client : ClientState :=
  { pendingRequests := [⟨1, "tools/call"⟩, ⟨2, "resources/read"⟩]
    stateMgr := ConnectionStateManager.new 0
    reSync := ⟨DEFAULT_RESYNC_CONFIG, 0⟩
    lastError := none
    serverProcess := none }

/-- Witness for C3: a timed-out `"tools/call"` request is removed from the
pending registry and rejected with the timeout error, with no resync and no
state transition. -/
theorem request_timeout_dispatch_witness :
    ∃ ev, onRequestTimeout c3client 1 "tools/call" 30000 (fun _ => none) 5 =
        Except.ok ev ∧
      ev.resyncInvoked = false ∧
      ev.client.stateMgr = c3client.stateMgr ∧
      ev.client.reSync = c3client.reSync ∧
      ev.client.pendingRequests = c3client.pendingRequests.filter (fun p => p.id ≠ 1) ∧
      ev.rejectedWith = "Request timeout after " ++ toString 30000 ++ "ms: " ++ "tools/call" :=
  (request_timeout_dispatch c3client 1 "tools/call" 30000 (fun _ => none) 5).2.2
    (by decide)

/-- A one-pending-request client for the C4 counterexample. -/
def c4client : ClientState :=
  { pendingRequests := [⟨1, "tools/call"⟩]
    stateMgr := ConnectionStateManager.new 0
    reSync := ⟨DEFAULT_RESYNC_CONFIG, 0⟩
    lastError := none
    serverProcess := none }

/-- The client after `handleServerError`. -/
def c4res : ClientState :=
  (handleServerError c4client "spawn failed" 1).toOption.getD c4client

/-- C4 counterexample: `handleServerError` completes yet the pending
request is still registered afterwards — the spawn/runtime error handler
performs no flush, refuting the claim that both handlers flush every
pending request. -/
theorem server_error_no_flush_cex :
    c4client.pendingRequests = [⟨1, "tools/call"⟩] ∧
    (handleServerError c4client "spawn failed" 1).isOk = true ∧
    c4res.pendingRequests = [⟨1, "tools/call"⟩] :=
  ⟨rfl, rfl, rfl⟩
